import Mathlib

/-!
Verification of the tariff/energy computation engine of the solar-demo
repository.  The JavaScript source (src/src/solar.jsx, identical logic in
src/unnamed/part_001) is embedded shallowly: all JS numbers are modelled as
rationals, JS `Math.min` / `Math.max` as `min` / `max` on ℚ, the
`Infinity` tier limit as `Option.none`, and `Math.round` as the
floor-of-x-plus-half rounding that the ECMAScript standard prescribes.
-/

namespace SolarDemo

/-- Constants from solar.jsx lines 32-38. -/
def NEM_EXPORT_RATE : ℚ := 24/100

def AVG_GRID_RATE : ℚ := 45/100

def SOLAR_YIELD_PER_KW : ℚ := 35/10

def TNB_RATE_PER_KWH : ℚ := 5/10

def EXPORT_RATE_FACTOR : ℚ := 7/10

def BATTERY_EXPORT_FACTOR : ℚ := 3/10

def BATTERY_UNIT_KWH : ℚ := 10

/-- One element of TARIFF_TIERS: `limit` is the kWh width of the band
(`none` encodes the JS `Infinity` of the last tier), `rate` the price per
kWh. -/
structure TariffTier where
  limit : Option ℚ
  rate : ℚ
deriving DecidableEq, Repr

/-- The tier table of solar.jsx lines 24-30. -/
def TARIFF_TIERS : List TariffTier :=
  [⟨some 200, 218/1000⟩,
   ⟨some 100, 334/1000⟩,
   ⟨some 300, 516/1000⟩,
   ⟨some 300, 546/1000⟩,
   ⟨none, 571/1000⟩]

/-- JS `Math.min(remaining, tier.limit)` where the limit may be
`Infinity` (`none`): the minimum with infinity is the other argument. -/
def tierAmount (remaining : ℚ) : Option ℚ → ℚ
  | none => remaining
  | some l => min remaining l

/-- The loop body of calculateKwhToBill (solar.jsx lines 41-53):
walk the tiers, charge `min(remaining, limit)` at each tier rate when that
amount is positive, and break as soon as `remaining ≤ 0`. -/
def billLoop : List TariffTier → ℚ → ℚ → ℚ
  | [], _, totalBill => totalBill
  | tier :: rest, remaining, totalBill =>
    let amountInTier := tierAmount remaining tier.limit
    let totalBill' := if 0 < amountInTier then totalBill + amountInTier * tier.rate else totalBill
    let remaining' := if 0 < amountInTier then remaining - amountInTier else remaining
    if remaining' ≤ 0 then totalBill' else billLoop rest remaining' totalBill'

/-- calculateKwhToBill from solar.jsx lines 41-53. -/
def calculateKwhToBill (kwh : ℚ) : ℚ :=
  billLoop TARIFF_TIERS kwh 0

/-- ECMAScript Math.round: round half toward positive infinity. -/
def jsRound (x : ℚ) : ℤ := ⌊x + 1/2⌋

/-- adjustedMonthlyKwh from solar.jsx lines 93-99: a 1.0 base multiplier
gets +0.3 for a future EV, +0.2 for a pool and +0.15 for a fish pond, the
result of base usage times the multiplier being rounded with Math.round. -/
def adjustedMonthlyKwh (monthlyKwh : ℚ) (futureEV futurePool futurePond : Bool) : ℤ :=
  let multiplier : ℚ :=
    1 + (if futureEV then 3/10 else 0)
      + (if futurePool then 2/10 else 0)
      + (if futurePond then 15/100 else 0)
  jsRound (monthlyKwh * multiplier)

/-- The configuration read by computeFormula: the adjusted monthly usage
(currentKwhUsage), the day-usage percentage, the panel wattage in watts,
the panel count, the battery toggle and the battery unit count. -/
structure Config where
  currentKwhUsage : ℚ
  dayUsagePercent : ℚ
  panelWattage : ℚ
  panelCount : ℚ
  hasBattery : Bool
  batteryUnits : ℚ
deriving DecidableEq, Repr

/-- batteryCapacity from solar.jsx line 112: units times 10 kWh,
independent of the hasBattery toggle. -/
def batteryCapacity (cfg : Config) : ℚ := cfg.batteryUnits * BATTERY_UNIT_KWH

/-- The record returned by computeFormula (solar.jsx lines 164-183). -/
structure FormulaResult where
  A : ℚ
  B : ℚ
  C : ℚ
  B1 : ℚ
  C1 : ℚ
  D : ℚ
  E : ℚ
  F : ℚ
  G : ℚ
  H : ℚ
  I : ℚ
  J : ℚ
  K : ℚ
  dailyTnbKwh : ℚ
  dailyTnbCost : ℚ
  dailyExportKwh : ℚ
  dailyStoredKwh : ℚ
  monthlyTnbCost : ℚ
deriving DecidableEq, Repr

/-- computeFormula from solar.jsx lines 119-184.  The three mutable
locals dailyTnbKwh, dailyExportKwh, dailyStoredKwh are carried as a
triple through the branch structure. -/
def computeFormula (cfg : Config) : FormulaResult :=
  let A := cfg.currentKwhUsage
  let B := (cfg.dayUsagePercent / 100) * A
  let C := A - B
  let B1 := B / 30
  let C1 := C / 30
  let D := cfg.panelCount
  let E := cfg.panelWattage / 1000
  let F := SOLAR_YIELD_PER_KW
  let G := D * E * F
  let H := if cfg.hasBattery then cfg.batteryUnits else 0
  let I := BATTERY_UNIT_KWH
  let J := H * I
  let K := TNB_RATE_PER_KWH
  let alloc : ℚ × ℚ × ℚ :=
    if B1 > G then
      ⟨(B1 - G) + C1, 0, 0⟩
    else
      let excess := G - B1
      if H = 0 then
        let dailyExportKwh := excess
        let credit := excess * K * EXPORT_RATE_FACTOR
        let cost := max 0 ((C1 * K) - credit)
        ⟨cost / K, dailyExportKwh, 0⟩
      else
        let dailyStoredKwh := min excess J
        let remainingExcess := max 0 (excess - J)
        let dailyExportKwh := if 0 < remainingExcess then remainingExcess else 0
        let cost := max 0 ((max 0 (C1 - dailyStoredKwh)) * K - (dailyExportKwh * K * BATTERY_EXPORT_FACTOR))
        ⟨cost / K, dailyExportKwh, dailyStoredKwh⟩
  let dailyTnbKwh := alloc.1
  let dailyExportKwh := alloc.2.1
  let dailyStoredKwh := alloc.2.2
  let dailyTnbCost := dailyTnbKwh * K
  let monthlyTnbCost := dailyTnbCost * 30
  ⟨A, B, C, B1, C1, D, E, F, G, H, I, J, K,
   dailyTnbKwh, dailyTnbCost, dailyExportKwh, dailyStoredKwh, monthlyTnbCost⟩

/-- The running accumulator of runSimulation (solar.jsx lines 191-198). -/
structure SimStats where
  tankLevel : ℚ
  gridExport : ℚ
  gridImport : ℚ
  solarGenerated : ℚ
  houseConsumed : ℚ
deriving DecidableEq, Repr

/-- One tick of the runSimulation interval callback (solar.jsx lines
204-225): half a day's formula quantities are accumulated and the battery
fill indicator is recomputed with the divide-by-zero guard. -/
def simTick (cfg : Config) (s : SimStats) : SimStats :=
  let formula := computeFormula cfg
  let dailySolar := formula.G
  let dailyConsumption := formula.A / 30
  let imported := formula.dailyTnbKwh
  let exported := formula.dailyExportKwh
  { solarGenerated := s.solarGenerated + dailySolar / 2
    houseConsumed := s.houseConsumed + dailyConsumption / 2
    gridExport := s.gridExport + exported / 2
    gridImport := s.gridImport + imported / 2
    tankLevel :=
      if cfg.hasBattery ∧ 0 < batteryCapacity cfg then
        (formula.dailyStoredKwh / batteryCapacity cfg) * 100
      else 0 }

/-- The first n ticks of the simulation, starting from the reset stats. -/
def runSimLoop (cfg : Config) : Nat → SimStats
  | 0 => ⟨0, 0, 0, 0, 0⟩
  | n + 1 => simTick cfg (runSimLoop cfg n)

/-- runSimulation runs 30 days in half-day increments: 60 ticks. -/
def runSimulation (cfg : Config) : SimStats := runSimLoop cfg 60

/-- The record produced by calculateFinalReport (solar.jsx lines 246-254). -/
structure FinalReport where
  oldBill : ℚ
  newBill : ℚ
  monthlySavings : ℚ
  totalGenerated : ℚ
  totalUsed : ℚ
  totalExported : ℚ
  lossAmount : ℚ
deriving DecidableEq, Repr

/-- calculateFinalReport from solar.jsx lines 234-255. -/
def calculateFinalReport (cfg : Config) (stats : SimStats) : FinalReport :=
  let formula := computeFormula cfg
  let oldBill := formula.A * formula.K
  let newBill := formula.monthlyTnbCost
  let potentialValueIfUsed := stats.gridExport * AVG_GRID_RATE
  let actualValueSold := stats.gridExport * NEM_EXPORT_RATE
  let lossAmount := potentialValueIfUsed - actualValueSold
  let monthlySavings := oldBill - newBill
  { oldBill := oldBill
    newBill := newBill
    monthlySavings := monthlySavings
    totalGenerated := stats.solarGenerated
    totalUsed := stats.houseConsumed - stats.gridImport
    totalExported := stats.gridExport
    lossAmount := lossAmount }

/-- Well-formedness of a tariff tier: nonnegative rate and nonnegative
width (an unbounded tier is well-formed). -/
def tierOK (t : TariffTier) : Prop := 0 ≤ t.rate ∧ 0 ≤ t.limit.getD 0

/-- The default wizard configuration of solar.jsx (usage 900 kWh/month,
60 percent day usage, twelve 615 W panels, no battery). -/
def demoNoBatteryCfg : Config := ⟨900, 60, 615, 12, false, 1⟩

/-- The same configuration with the battery toggle on and one 10 kWh
battery unit. -/
def demoBatteryCfg : Config := ⟨900, 60, 615, 12, true, 1⟩

/-- The same configuration with only two panels, so solar falls short of
the daytime load. -/
def demoSmallArrayCfg : Config := ⟨900, 60, 615, 2, false, 1⟩

/-- A sample accumulator with 10 kWh of accumulated grid export. -/
def demoStats : SimStats := ⟨0, 10, 0, 0, 0⟩

lemma computeFormula_A (cfg : Config) : (computeFormula cfg).A = cfg.currentKwhUsage := rfl

lemma computeFormula_B1 (cfg : Config) :
    (computeFormula cfg).B1 = (cfg.dayUsagePercent / 100 * cfg.currentKwhUsage) / 30 := rfl

lemma computeFormula_C1 (cfg : Config) :
    (computeFormula cfg).C1 = (cfg.currentKwhUsage - cfg.dayUsagePercent / 100 * cfg.currentKwhUsage) / 30 := rfl

lemma computeFormula_G (cfg : Config) :
    (computeFormula cfg).G = cfg.panelCount * (cfg.panelWattage / 1000) * SOLAR_YIELD_PER_KW := rfl

lemma computeFormula_K (cfg : Config) : (computeFormula cfg).K = TNB_RATE_PER_KWH := rfl

lemma computeFormula_J (cfg : Config) :
    (computeFormula cfg).J = (if cfg.hasBattery then cfg.batteryUnits else 0) * BATTERY_UNIT_KWH := rfl

lemma computeFormula_caseA (cfg : Config)
    (h : (computeFormula cfg).G < (computeFormula cfg).B1) :
    (computeFormula cfg).dailyTnbKwh
        = ((computeFormula cfg).B1 - (computeFormula cfg).G) + (computeFormula cfg).C1 ∧
      (computeFormula cfg).dailyExportKwh = 0 ∧
      (computeFormula cfg).dailyStoredKwh = 0 := by
  rw [computeFormula_G, computeFormula_B1] at h
  simp only [computeFormula, if_pos h]
  exact ⟨trivial, trivial, trivial⟩

lemma if_pos_max_self (x : ℚ) : (if 0 < max 0 x then max 0 x else 0) = max 0 x := by
  rcases lt_or_le 0 (max 0 x) with hx | hx
  · rw [if_pos hx]
  · rw [if_neg (not_lt.mpr hx)]
    exact (le_antisymm hx (le_max_left 0 x)).symm

lemma computeFormula_H (cfg : Config) :
    (computeFormula cfg).H = (if cfg.hasBattery then cfg.batteryUnits else 0) := rfl

lemma computeFormula_dailyTnbCost (cfg : Config) :
    (computeFormula cfg).dailyTnbCost = (computeFormula cfg).dailyTnbKwh * TNB_RATE_PER_KWH := rfl

lemma computeFormula_monthlyTnbCost (cfg : Config) :
    (computeFormula cfg).monthlyTnbCost = (computeFormula cfg).dailyTnbCost * 30 := rfl

lemma computeFormula_caseB_H0 (cfg : Config)
    (hH : (computeFormula cfg).H = 0)
    (h : (computeFormula cfg).B1 ≤ (computeFormula cfg).G) :
    (computeFormula cfg).dailyTnbKwh
        = max 0 ((computeFormula cfg).C1 * TNB_RATE_PER_KWH
            - ((computeFormula cfg).G - (computeFormula cfg).B1) * TNB_RATE_PER_KWH * EXPORT_RATE_FACTOR)
          / TNB_RATE_PER_KWH ∧
      (computeFormula cfg).dailyExportKwh = (computeFormula cfg).G - (computeFormula cfg).B1 ∧
      (computeFormula cfg).dailyStoredKwh = 0 := by
  rw [computeFormula_G, computeFormula_B1] at h
  rw [computeFormula_H] at hH
  simp only [computeFormula, if_neg (not_lt.mpr h), if_pos hH]
  norm_num

lemma computeFormula_caseB_Hne (cfg : Config)
    (hH : (computeFormula cfg).H ≠ 0)
    (h : (computeFormula cfg).B1 ≤ (computeFormula cfg).G) :
    (computeFormula cfg).dailyStoredKwh
        = min ((computeFormula cfg).G - (computeFormula cfg).B1) (computeFormula cfg).J ∧
      (computeFormula cfg).dailyExportKwh
        = max 0 (((computeFormula cfg).G - (computeFormula cfg).B1) - (computeFormula cfg).J) ∧
      (computeFormula cfg).dailyTnbKwh
        = max 0 ((max 0 ((computeFormula cfg).C1 - (computeFormula cfg).dailyStoredKwh)) * TNB_RATE_PER_KWH
            - (computeFormula cfg).dailyExportKwh * TNB_RATE_PER_KWH * BATTERY_EXPORT_FACTOR)
          / TNB_RATE_PER_KWH := by
  rw [computeFormula_G, computeFormula_B1] at h
  rw [computeFormula_H] at hH
  simp only [computeFormula, if_neg (not_lt.mpr h), if_neg hH, if_pos_max_self]
  norm_num [if_pos_max_self]

lemma calculateFinalReport_oldBill (cfg : Config) (stats : SimStats) :
    (calculateFinalReport cfg stats).oldBill
      = (computeFormula cfg).A * (computeFormula cfg).K := rfl

lemma calculateFinalReport_monthlySavings (cfg : Config) (stats : SimStats) :
    (calculateFinalReport cfg stats).monthlySavings
      = (computeFormula cfg).A * (computeFormula cfg).K - (computeFormula cfg).monthlyTnbCost := rfl

lemma calculateFinalReport_lossAmount (cfg : Config) (stats : SimStats) :
    (calculateFinalReport cfg stats).lossAmount
      = stats.gridExport * AVG_GRID_RATE - stats.gridExport * NEM_EXPORT_RATE := rfl

lemma billLoop_accum (ts : List TariffTier) (r t : ℚ) :
    billLoop ts r t = t + billLoop ts r 0 := by
  induction ts generalizing r t with
  | nil => simp [billLoop]
  | cons tier rest ih =>
    simp only [billLoop]
    split_ifs with ha hr
    · ring
    · rw [ih (r - tierAmount r tier.limit) (t + tierAmount r tier.limit * tier.rate),
        ih (r - tierAmount r tier.limit) (0 + tierAmount r tier.limit * tier.rate)]
      ring
    · ring
    · rw [ih r t]

lemma billLoop_cons_some (l rate : ℚ) (hl : 0 ≤ l) (ts : List TariffTier) (r : ℚ) :
    billLoop (⟨some l, rate⟩ :: ts) r 0 =
      if r ≤ 0 then 0
      else if r ≤ l then r * rate
      else l * rate + billLoop ts (r - l) 0 := by
  simp only [billLoop, tierAmount]
  rcases le_or_lt r 0 with hr | hr
  · have hm : ¬ (0 < min r l) := not_lt.mpr (le_trans (min_le_left r l) hr)
    rw [if_neg hm, if_neg hm, if_pos hr, if_pos hr]
  · rw [if_neg (not_le.mpr hr)]
    rcases le_or_lt r l with hrl | hlr
    · have hm : 0 < min r l := lt_min hr (lt_of_lt_of_le hr hrl)
      rw [if_pos hm, if_pos hm, min_eq_left hrl, if_pos (by linarith : r - r ≤ 0), if_pos hrl]
      ring
    · rw [min_eq_right hlr.le, if_neg (not_le.mpr hlr)]
      rcases lt_or_le 0 l with hl0 | hl0
      · rw [if_pos hl0, if_pos hl0, if_neg (by linarith : ¬ r - l ≤ 0), billLoop_accum]
        ring
      · have hl' : l = 0 := le_antisymm hl0 hl
        rw [if_neg (not_lt.mpr hl0), if_neg (not_lt.mpr hl0), if_neg (not_le.mpr hr), hl']
        ring_nf

lemma billLoop_cons_none (rate : ℚ) (ts : List TariffTier) (r : ℚ) :
    billLoop (⟨none, rate⟩ :: ts) r 0 = if r ≤ 0 then 0 else r * rate := by
  simp only [billLoop, tierAmount]
  rcases le_or_lt r 0 with hr | hr
  · rw [if_neg (not_lt.mpr hr), if_neg (not_lt.mpr hr), if_pos hr, if_pos hr]
  · rw [if_pos hr, if_pos hr, if_neg (not_le.mpr hr), if_pos (by linarith : r - r ≤ 0)]
    ring

lemma billLoop_nonneg : ∀ (ts : List TariffTier), (∀ t ∈ ts, tierOK t) → ∀ (r : ℚ),
    0 ≤ billLoop ts r 0
  | [], _, r => by simp [billLoop]
  | tier :: rest, hts, r => by
    obtain ⟨hrate, hlim⟩ := hts tier (List.mem_cons_self tier rest)
    have hrest : ∀ t ∈ rest, tierOK t := fun t ht => hts t (List.mem_cons_of_mem _ ht)
    obtain ⟨lim, rate⟩ := tier
    cases lim with
    | none =>
      rw [billLoop_cons_none]
      split_ifs with hr
      · exact le_refl 0
      · exact mul_nonneg (le_of_lt (not_le.mp hr)) hrate
    | some l =>
      have hl : 0 ≤ l := by simpa using hlim
      rw [billLoop_cons_some l rate hl]
      split_ifs with hr hrl
      · exact le_refl 0
      · exact mul_nonneg (le_of_lt (not_le.mp hr)) hrate
      · exact add_nonneg (mul_nonneg hl hrate) (billLoop_nonneg rest hrest (r - l))

lemma billLoop_mono : ∀ (ts : List TariffTier), (∀ t ∈ ts, tierOK t) → ∀ (x y : ℚ),
    0 ≤ x → x ≤ y → billLoop ts x 0 ≤ billLoop ts y 0
  | [], _, x, y, _, _ => by simp [billLoop]
  | tier :: rest, hts, x, y, hx, hxy => by
    obtain ⟨hrate, hlim⟩ := hts tier (List.mem_cons_self tier rest)
    have hrest : ∀ t ∈ rest, tierOK t := fun t ht => hts t (List.mem_cons_of_mem _ ht)
    obtain ⟨lim, rate⟩ := tier
    cases lim with
    | none =>
      rw [billLoop_cons_none, billLoop_cons_none]
      split_ifs with hx0 hy0 hy0
      · exact le_refl 0
      · exact mul_nonneg (le_of_lt (not_le.mp hy0)) hrate
      · linarith [not_le.mp hx0]
      · exact mul_le_mul_of_nonneg_right hxy hrate
    | some l =>
      have hl : 0 ≤ l := by simpa using hlim
      rw [billLoop_cons_some l rate hl, billLoop_cons_some l rate hl]
      rcases le_or_lt x 0 with hx0 | hx0
      · rw [if_pos hx0]
        split_ifs with hy0 hyl
        · exact le_refl 0
        · exact mul_nonneg (le_of_lt (not_le.mp hy0)) hrate
        · exact add_nonneg (mul_nonneg hl hrate) (billLoop_nonneg rest hrest (y - l))
      · have hy0 : 0 < y := lt_of_lt_of_le hx0 hxy
        rw [if_neg (not_le.mpr hx0), if_neg (not_le.mpr hy0)]
        rcases le_or_lt y l with hyl | hly
        · rw [if_pos (le_trans hxy hyl), if_pos hyl]
          exact mul_le_mul_of_nonneg_right hxy hrate
        · rw [if_neg (not_le.mpr hly)]
          rcases le_or_lt x l with hxl | hlx
          · rw [if_pos hxl]
            have h1 : x * rate ≤ l * rate := mul_le_mul_of_nonneg_right hxl hrate
            have h2 : 0 ≤ billLoop rest (y - l) 0 := billLoop_nonneg rest hrest (y - l)
            linarith
          · rw [if_neg (not_le.mpr hlx)]
            have := billLoop_mono rest hrest (x - l) (y - l) (by linarith) (by linarith)
            linarith

lemma tariffTiersOK : ∀ t ∈ TARIFF_TIERS, tierOK t := by
  intro t ht
  fin_cases ht <;> constructor <;> norm_num [tierOK]

/-- C1: with no battery and daily solar generation at least the daily
daytime load, computeFormula exports the entire excess G - B1, and the
net billed kWh-equivalent is max(0, nightDaily * flatRate - excess *
flatRate * 0.7) / flatRate, the clamp applied after subtracting the
export credit. -/
theorem C1_no_battery_full_excess_exported_and_clamped_net_bill (cfg : Config)
    (hb : cfg.hasBattery = false)
    (h : (computeFormula cfg).B1 ≤ (computeFormula cfg).G) :
    (computeFormula cfg).dailyExportKwh = (computeFormula cfg).G - (computeFormula cfg).B1 ∧
    (computeFormula cfg).dailyTnbKwh
      = max 0 ((computeFormula cfg).C1 * TNB_RATE_PER_KWH
          - ((computeFormula cfg).G - (computeFormula cfg).B1) * TNB_RATE_PER_KWH * (7/10))
        / TNB_RATE_PER_KWH := by
  have hH : (computeFormula cfg).H = 0 := by rw [computeFormula_H, hb]; simp
  obtain ⟨h1, h2, h3⟩ := computeFormula_caseB_H0 cfg hH h
  refine ⟨h2, ?_⟩
  rw [h1]
  norm_num [EXPORT_RATE_FACTOR]

theorem C1_witness :
    demoNoBatteryCfg.hasBattery = false ∧
    (computeFormula demoNoBatteryCfg).B1 ≤ (computeFormula demoNoBatteryCfg).G ∧
    ((computeFormula demoNoBatteryCfg).dailyExportKwh
        = (computeFormula demoNoBatteryCfg).G - (computeFormula demoNoBatteryCfg).B1 ∧
      (computeFormula demoNoBatteryCfg).dailyTnbKwh
        = max 0 ((computeFormula demoNoBatteryCfg).C1 * TNB_RATE_PER_KWH
            - ((computeFormula demoNoBatteryCfg).G - (computeFormula demoNoBatteryCfg).B1)
              * TNB_RATE_PER_KWH * (7/10))
          / TNB_RATE_PER_KWH) :=
  ⟨rfl, by norm_num [computeFormula, demoNoBatteryCfg, demoBatteryCfg, demoSmallArrayCfg, SOLAR_YIELD_PER_KW, TNB_RATE_PER_KWH, EXPORT_RATE_FACTOR, BATTERY_EXPORT_FACTOR, BATTERY_UNIT_KWH, batteryCapacity],
    C1_no_battery_full_excess_exported_and_clamped_net_bill demoNoBatteryCfg rfl (by norm_num [computeFormula, demoNoBatteryCfg, demoBatteryCfg, demoSmallArrayCfg, SOLAR_YIELD_PER_KW, TNB_RATE_PER_KWH, EXPORT_RATE_FACTOR, BATTERY_EXPORT_FACTOR, BATTERY_UNIT_KWH, batteryCapacity])⟩

/-- C2: with a battery, when daily solar generation is at least the
daily daytime load, the excess first charges the battery (stored =
min(excess, batteryCapacity)), the remainder is exported (exported =
max(0, excess - batteryCapacity)); capacity at least the excess means no
export and all excess stored, capacity below the excess means stored
equals capacity exactly; and the daily billed cost is max(0, max(0,
nightDaily - stored) * flatRate - exported * flatRate * 0.3). -/
theorem C2_battery_allocation_and_billed_cost (cfg : Config)
    (hb : cfg.hasBattery = true) (hu : cfg.batteryUnits ≠ 0)
    (h : (computeFormula cfg).B1 ≤ (computeFormula cfg).G) :
    (computeFormula cfg).dailyStoredKwh
        = min ((computeFormula cfg).G - (computeFormula cfg).B1) (batteryCapacity cfg) ∧
    (computeFormula cfg).dailyExportKwh
        = max 0 ((computeFormula cfg).G - (computeFormula cfg).B1 - batteryCapacity cfg) ∧
    ((computeFormula cfg).G - (computeFormula cfg).B1 ≤ batteryCapacity cfg →
      (computeFormula cfg).dailyExportKwh = 0 ∧
      (computeFormula cfg).dailyStoredKwh = (computeFormula cfg).G - (computeFormula cfg).B1) ∧
    (batteryCapacity cfg < (computeFormula cfg).G - (computeFormula cfg).B1 →
      (computeFormula cfg).dailyStoredKwh = batteryCapacity cfg) ∧
    (computeFormula cfg).dailyTnbCost
      = max 0 (max 0 ((computeFormula cfg).C1 - (computeFormula cfg).dailyStoredKwh) * TNB_RATE_PER_KWH
          - (computeFormula cfg).dailyExportKwh * TNB_RATE_PER_KWH * (3/10)) := by
  have hH : (computeFormula cfg).H ≠ 0 := by rw [computeFormula_H, hb]; simpa using hu
  have hJ : (computeFormula cfg).J = batteryCapacity cfg := by
    rw [computeFormula_J, hb, batteryCapacity]; simp
  obtain ⟨hs, he, ht⟩ := computeFormula_caseB_Hne cfg hH h
  refine ⟨by rw [hs, hJ], by rw [he, hJ], ?_, ?_, ?_⟩
  · intro hle
    constructor
    · rw [he, hJ]
      exact max_eq_left (by linarith)
    · rw [hs, hJ]
      exact min_eq_left hle
  · intro hlt
    rw [hs, hJ]
    exact min_eq_right hlt.le
  · rw [computeFormula_dailyTnbCost, ht]
    have hK : (TNB_RATE_PER_KWH : ℚ) ≠ 0 := by norm_num [TNB_RATE_PER_KWH]
    rw [div_mul_cancel₀ _ hK]
    norm_num [BATTERY_EXPORT_FACTOR]

theorem C2_witness :
    demoBatteryCfg.hasBattery = true ∧
    demoBatteryCfg.batteryUnits ≠ 0 ∧
    (computeFormula demoBatteryCfg).B1 ≤ (computeFormula demoBatteryCfg).G ∧
    (computeFormula demoBatteryCfg).dailyStoredKwh
      = min ((computeFormula demoBatteryCfg).G - (computeFormula demoBatteryCfg).B1)
          (batteryCapacity demoBatteryCfg) :=
  ⟨rfl, by norm_num [computeFormula, demoNoBatteryCfg, demoBatteryCfg, demoSmallArrayCfg, SOLAR_YIELD_PER_KW, TNB_RATE_PER_KWH, EXPORT_RATE_FACTOR, BATTERY_EXPORT_FACTOR, BATTERY_UNIT_KWH, batteryCapacity], by norm_num [computeFormula, demoNoBatteryCfg, demoBatteryCfg, demoSmallArrayCfg, SOLAR_YIELD_PER_KW, TNB_RATE_PER_KWH, EXPORT_RATE_FACTOR, BATTERY_EXPORT_FACTOR, BATTERY_UNIT_KWH, batteryCapacity],
    (C2_battery_allocation_and_billed_cost demoBatteryCfg rfl (by norm_num [computeFormula, demoNoBatteryCfg, demoBatteryCfg, demoSmallArrayCfg, SOLAR_YIELD_PER_KW, TNB_RATE_PER_KWH, EXPORT_RATE_FACTOR, BATTERY_EXPORT_FACTOR, BATTERY_UNIT_KWH, batteryCapacity]) (by norm_num [computeFormula, demoNoBatteryCfg, demoBatteryCfg, demoSmallArrayCfg, SOLAR_YIELD_PER_KW, TNB_RATE_PER_KWH, EXPORT_RATE_FACTOR, BATTERY_EXPORT_FACTOR, BATTERY_UNIT_KWH, batteryCapacity])).1⟩

/-- C3: when the daily daytime load strictly exceeds daily solar
generation, the daily billed kWh is the daytime shortfall plus the whole
night load, billed at the flat rate, with no export and no battery
charge. -/
theorem C3_solar_insufficient_bills_shortfall_plus_night (cfg : Config)
    (h : (computeFormula cfg).G < (computeFormula cfg).B1) :
    (computeFormula cfg).dailyTnbKwh
        = ((computeFormula cfg).B1 - (computeFormula cfg).G) + (computeFormula cfg).C1 ∧
      (computeFormula cfg).dailyTnbCost
        = (((computeFormula cfg).B1 - (computeFormula cfg).G) + (computeFormula cfg).C1)
            * TNB_RATE_PER_KWH ∧
      (computeFormula cfg).dailyExportKwh = 0 ∧
      (computeFormula cfg).dailyStoredKwh = 0 := by
  obtain ⟨h1, h2, h3⟩ := computeFormula_caseA cfg h
  exact ⟨h1, by rw [computeFormula_dailyTnbCost, h1], h2, h3⟩

theorem C3_witness :
    (computeFormula demoSmallArrayCfg).G < (computeFormula demoSmallArrayCfg).B1 ∧
    ((computeFormula demoSmallArrayCfg).dailyTnbKwh
        = ((computeFormula demoSmallArrayCfg).B1 - (computeFormula demoSmallArrayCfg).G)
            + (computeFormula demoSmallArrayCfg).C1 ∧
      (computeFormula demoSmallArrayCfg).dailyTnbCost
        = (((computeFormula demoSmallArrayCfg).B1 - (computeFormula demoSmallArrayCfg).G)
            + (computeFormula demoSmallArrayCfg).C1) * TNB_RATE_PER_KWH ∧
      (computeFormula demoSmallArrayCfg).dailyExportKwh = 0 ∧
      (computeFormula demoSmallArrayCfg).dailyStoredKwh = 0) :=
  ⟨by norm_num [computeFormula, demoNoBatteryCfg, demoBatteryCfg, demoSmallArrayCfg, SOLAR_YIELD_PER_KW, TNB_RATE_PER_KWH, EXPORT_RATE_FACTOR, BATTERY_EXPORT_FACTOR, BATTERY_UNIT_KWH, batteryCapacity], C3_solar_insufficient_bills_shortfall_plus_night demoSmallArrayCfg (by norm_num [computeFormula, demoNoBatteryCfg, demoBatteryCfg, demoSmallArrayCfg, SOLAR_YIELD_PER_KW, TNB_RATE_PER_KWH, EXPORT_RATE_FACTOR, BATTERY_EXPORT_FACTOR, BATTERY_UNIT_KWH, batteryCapacity])⟩

/-- C4, counterexample: for the published end-to-end scenario (900
kWh/month, 60 percent day, 12 panels of 615 W, no battery) the engine
yields a monthly grid cost of exactly 97.785, not the 97.86 the claim
states (the spec rounded the export credit 2.7405 to 2.74 before
propagating it). -/
theorem C4_counterexample_monthly_cost :
    (computeFormula demoNoBatteryCfg).monthlyTnbCost = 19557/200 ∧
    (19557/200 : ℚ) ≠ 9786/100 := by
  constructor
  · norm_num [computeFormula, demoNoBatteryCfg, SOLAR_YIELD_PER_KW, TNB_RATE_PER_KWH,
      EXPORT_RATE_FACTOR]
  · norm_num

/-- C4, amended: in that scenario daily solar is 25.83 kWh, daily
export 7.83 kWh, monthly grid cost 97.785, and the final report yields
old bill 450 and monthly savings 352.215. -/
theorem C4_amended_end_to_end :
    (computeFormula demoNoBatteryCfg).G = 2583/100 ∧
    (computeFormula demoNoBatteryCfg).dailyExportKwh = 783/100 ∧
    (computeFormula demoNoBatteryCfg).monthlyTnbCost = 19557/200 ∧
    (calculateFinalReport demoNoBatteryCfg (runSimulation demoNoBatteryCfg)).oldBill = 450 ∧
    (calculateFinalReport demoNoBatteryCfg (runSimulation demoNoBatteryCfg)).monthlySavings
      = 70443/200 := by
  refine ⟨?_, ?_, ?_, ?_, ?_⟩ <;>
    norm_num [computeFormula, demoNoBatteryCfg, SOLAR_YIELD_PER_KW, TNB_RATE_PER_KWH,
      EXPORT_RATE_FACTOR, calculateFinalReport_oldBill, calculateFinalReport_monthlySavings,
      computeFormula_monthlyTnbCost, computeFormula_dailyTnbCost]

/-- C5: the tiered tariff returns 0 at 0 and exact block sums at the
published tier boundaries 200, 300, 600 and 900 for the widths
200/100/300/300/unbounded at rates 0.218/0.334/0.516/0.546/0.571. -/
theorem C5_tier_boundary_block_sums :
    calculateKwhToBill 0 = 0 ∧
    calculateKwhToBill 200 = 200 * (218/1000) ∧
    calculateKwhToBill 300 = 200 * (218/1000) + 100 * (334/1000) ∧
    calculateKwhToBill 600 = 200 * (218/1000) + 100 * (334/1000) + 300 * (516/1000) ∧
    calculateKwhToBill 900 = 200 * (218/1000) + 100 * (334/1000) + 300 * (516/1000)
      + 300 * (546/1000) := by
  refine ⟨?_, ?_, ?_, ?_, ?_⟩ <;>
    norm_num [calculateKwhToBill, TARIFF_TIERS, billLoop, tierAmount, min_def]

/-- C6: the tiered tariff function is monotonically non-decreasing on
nonnegative inputs. -/
theorem C6_tierBill_monotone (x y : ℚ) (hx : 0 ≤ x) (hxy : x ≤ y) :
    calculateKwhToBill x ≤ calculateKwhToBill y :=
  billLoop_mono TARIFF_TIERS tariffTiersOK x y hx hxy

theorem C6_witness :
    (0:ℚ) ≤ 100 ∧ (100:ℚ) ≤ 250 ∧ calculateKwhToBill 100 ≤ calculateKwhToBill 250 :=
  ⟨by norm_num, by norm_num, C6_tierBill_monotone 100 250 (by norm_num) (by norm_num)⟩

/-- C7: for every accumulator with nonnegative exported kWh, the final
report lost-value figure (export valued at the 0.45 blended grid rate
minus export valued at the 0.24 NEM rate) is nonnegative. -/
theorem C7_lost_value_nonneg (cfg : Config) (stats : SimStats) (h : 0 ≤ stats.gridExport) :
    0 ≤ (calculateFinalReport cfg stats).lossAmount := by
  rw [calculateFinalReport_lossAmount, AVG_GRID_RATE, NEM_EXPORT_RATE]
  nlinarith

theorem C7_witness :
    0 ≤ demoStats.gridExport ∧
    0 ≤ (calculateFinalReport demoNoBatteryCfg demoStats).lossAmount :=
  ⟨by norm_num [demoStats],
    C7_lost_value_nonneg demoNoBatteryCfg demoStats (by norm_num [demoStats])⟩

/-- C8: on every simulation tick the battery fill indicator equals
stored / batteryCapacity * 100 exactly when a battery is present with
positive capacity, and is 0 whenever there is no battery or the capacity
is zero, so no division by zero is performed. -/
theorem C8_tank_level_guarded (cfg : Config) (s : SimStats) :
    (simTick cfg s).tankLevel
        = (if cfg.hasBattery ∧ 0 < batteryCapacity cfg
            then (computeFormula cfg).dailyStoredKwh / batteryCapacity cfg * 100
            else 0) ∧
      ((cfg.hasBattery = false ∨ batteryCapacity cfg = 0) → (simTick cfg s).tankLevel = 0) := by
  constructor
  · rfl
  · intro h
    rcases h with h | h
    · simp [simTick, h]
    · simp [simTick, h]

theorem C8_witness : (simTick demoNoBatteryCfg demoStats).tankLevel = 0 :=
  (C8_tank_level_guarded demoNoBatteryCfg demoStats).2 (Or.inl rfl)

/-- C9, counterexample: the projected monthly usage is not literally
base * (1 + 0.3 EV + 0.2 pool + 0.15 pond): at base 901 with only the
pond flag the code returns Math.round(1036.15) = 1036, not 1036.15. -/
theorem C9_counterexample_rounding :
    ((adjustedMonthlyKwh 901 false false true : ℤ) : ℚ) = 1036 ∧
    (901 * (1 + (3/10) * 0 + (2/10) * 0 + (15/100) * 1) : ℚ) = 103615/100 ∧
    (1036 : ℚ) ≠ 103615/100 := by
  refine ⟨?_, by norm_num, by norm_num⟩
  norm_num [adjustedMonthlyKwh, jsRound, Int.floor_eq_iff]

/-- C9, amended: the projected monthly usage equals the rounded value
of base * (1 + 0.3 EV + 0.2 pool + 0.15 pond), the surcharges added to a
1.0 base multiplier and applied once to the base usage, not compounded
pairwise. -/
theorem C9_amended_future_load_multiplier (monthlyKwh : ℚ)
    (futureEV futurePool futurePond : Bool) :
    adjustedMonthlyKwh monthlyKwh futureEV futurePool futurePond
      = ⌊monthlyKwh * (1 + (3/10) * (if futureEV then 1 else 0)
            + (2/10) * (if futurePool then 1 else 0)
            + (15/100) * (if futurePond then 1 else 0)) + 1/2⌋ := by
  cases futureEV <;> cases futurePool <;> cases futurePond <;>
    norm_num [adjustedMonthlyKwh, jsRound]

/-- C10: for every configuration with nonnegative usage, day fraction
in 0 to 100, nonnegative panel count, wattage and battery units (the
flat rate is the fixed positive constant 0.5), the outputs satisfy:
daily billed kWh is nonnegative, daily exported kWh is nonnegative, the
daily stored kWh lies between 0 and the battery capacity, and in the
battery branch export is positive only when the battery is stored to its
full capacity. -/
theorem C10_output_invariants (cfg : Config)
    (hA : 0 ≤ cfg.currentKwhUsage)
    (hd0 : 0 ≤ cfg.dayUsagePercent) (hd1 : cfg.dayUsagePercent ≤ 100)
    (hp : 0 ≤ cfg.panelCount) (hw : 0 ≤ cfg.panelWattage)
    (hu : 0 ≤ cfg.batteryUnits) :
    0 ≤ (computeFormula cfg).dailyTnbKwh ∧
    0 ≤ (computeFormula cfg).dailyExportKwh ∧
    0 ≤ (computeFormula cfg).dailyStoredKwh ∧
    (computeFormula cfg).dailyStoredKwh ≤ batteryCapacity cfg ∧
    (cfg.hasBattery = true → cfg.batteryUnits ≠ 0 →
      0 < (computeFormula cfg).dailyExportKwh →
      (computeFormula cfg).dailyStoredKwh = batteryCapacity cfg) := by
  have hB1 : 0 ≤ (computeFormula cfg).B1 := by
    rw [computeFormula_B1]
    exact div_nonneg (mul_nonneg (div_nonneg hd0 (by norm_num)) hA) (by norm_num)
  have hC1 : 0 ≤ (computeFormula cfg).C1 := by
    rw [computeFormula_C1]
    apply div_nonneg _ (by norm_num)
    nlinarith
  have hG : 0 ≤ (computeFormula cfg).G := by
    rw [computeFormula_G]
    exact mul_nonneg (mul_nonneg hp (div_nonneg hw (by norm_num)))
      (by norm_num [SOLAR_YIELD_PER_KW])
  have hcap : 0 ≤ batteryCapacity cfg := by
    rw [batteryCapacity]
    exact mul_nonneg hu (by norm_num [BATTERY_UNIT_KWH])
  have hJ0 : 0 ≤ (computeFormula cfg).J := by
    rw [computeFormula_J]
    split_ifs
    · exact mul_nonneg hu (by norm_num [BATTERY_UNIT_KWH])
    · norm_num
  have hJcap : (computeFormula cfg).J ≤ batteryCapacity cfg := by
    rw [computeFormula_J, batteryCapacity]
    split_ifs
    · exact le_refl _
    · simpa using mul_nonneg hu (by norm_num [BATTERY_UNIT_KWH] : (0:ℚ) ≤ BATTERY_UNIT_KWH)
  have hK : (0:ℚ) < TNB_RATE_PER_KWH := by norm_num [TNB_RATE_PER_KWH]
  rcases lt_or_le (computeFormula cfg).G (computeFormula cfg).B1 with hcase | hcase
  · obtain ⟨h1, h2, h3⟩ := computeFormula_caseA cfg hcase
    refine ⟨?_, ?_, ?_, ?_, ?_⟩
    · rw [h1]; linarith
    · rw [h2]
    · rw [h3]
    · rw [h3]; exact hcap
    · intro _ _ hpos
      rw [h2] at hpos
      exact absurd hpos (lt_irrefl 0)
  · rcases eq_or_ne (computeFormula cfg).H 0 with hH | hH
    · obtain ⟨h1, h2, h3⟩ := computeFormula_caseB_H0 cfg hH hcase
      refine ⟨?_, ?_, ?_, ?_, ?_⟩
      · rw [h1]; exact div_nonneg (le_max_left _ _) hK.le
      · rw [h2]; exact sub_nonneg.mpr hcase
      · rw [h3]
      · rw [h3]; exact hcap
      · intro hbat hune _
        exfalso
        apply hune
        rw [computeFormula_H, hbat] at hH
        simpa using hH
    · obtain ⟨hs, he, ht⟩ := computeFormula_caseB_Hne cfg hH hcase
      have hexc : 0 ≤ (computeFormula cfg).G - (computeFormula cfg).B1 := sub_nonneg.mpr hcase
      refine ⟨?_, ?_, ?_, ?_, ?_⟩
      · rw [ht]; exact div_nonneg (le_max_left _ _) hK.le
      · rw [he]; exact le_max_left _ _
      · rw [hs]; exact le_min hexc hJ0
      · rw [hs]; exact le_trans (min_le_right _ _) hJcap
      · intro hbat _ hpos
        rw [he] at hpos
        have hJlt : (computeFormula cfg).J
            < (computeFormula cfg).G - (computeFormula cfg).B1 := by
          by_contra hle
          push_neg at hle
          rw [max_eq_left (by linarith)] at hpos
          exact lt_irrefl 0 hpos
        rw [hs, min_eq_right hJlt.le, computeFormula_J, hbat, batteryCapacity]
        simp

theorem C10_witness :
    0 ≤ demoBatteryCfg.currentKwhUsage ∧
    (0 ≤ demoBatteryCfg.dayUsagePercent ∧ demoBatteryCfg.dayUsagePercent ≤ 100) ∧
    0 ≤ demoBatteryCfg.panelCount ∧
    0 ≤ demoBatteryCfg.panelWattage ∧
    0 ≤ demoBatteryCfg.batteryUnits ∧
    (0 ≤ (computeFormula demoBatteryCfg).dailyTnbKwh ∧
      0 ≤ (computeFormula demoBatteryCfg).dailyExportKwh ∧
      0 ≤ (computeFormula demoBatteryCfg).dailyStoredKwh ∧
      (computeFormula demoBatteryCfg).dailyStoredKwh ≤ batteryCapacity demoBatteryCfg ∧
      (demoBatteryCfg.hasBattery = true → demoBatteryCfg.batteryUnits ≠ 0 →
        0 < (computeFormula demoBatteryCfg).dailyExportKwh →
        (computeFormula demoBatteryCfg).dailyStoredKwh = batteryCapacity demoBatteryCfg)) :=
  ⟨by norm_num [demoBatteryCfg], ⟨by norm_num [demoBatteryCfg], by norm_num [demoBatteryCfg]⟩,
    by norm_num [demoBatteryCfg], by norm_num [demoBatteryCfg], by norm_num [demoBatteryCfg],
    C10_output_invariants demoBatteryCfg (by norm_num [demoBatteryCfg])
      (by norm_num [demoBatteryCfg]) (by norm_num [demoBatteryCfg])
      (by norm_num [demoBatteryCfg]) (by norm_num [demoBatteryCfg])
      (by norm_num [demoBatteryCfg])⟩

end SolarDemo
